/-
  Verification development for the StratCap calculation engines.

  Shallow embedding of three Python modules:
    * src/backend/api-gateway/src/services/waterfall_engine.py
    * src/backend/api-gateway/src/models/fund_events.py
    * src/backend/api-gateway/src/models/allocation_engine.py (with the data
      model from src/backend/api-gateway/src/models/fund_structure.py)

  Modelling conventions:
    * Python `Decimal` and `float` monetary arithmetic is modelled with ℚ
      (exact rational arithmetic).  Note that ℚ division is total with
      `x / 0 = 0`, whereas Python raises on a zero divisor; every place where
      this matters is marked with a comment.
    * Python dates are modelled as `Int` ordinal day numbers; only comparison
      and subtraction of dates is used by the code under study.
    * Python `dict` values used as records become structures; `dict`s used as
      keyed maps become association lists with insert-overwrite semantics.
    * Python truthiness tests on `Optional[Decimal]` fields
      (`if not tier_def.hurdle_rate:`) treat both `None` and `0` as falsy;
      this is captured by `truthyRate`.
    * Fields that never influence the computations under study (names,
      descriptions, timestamps, generated ids, human-readable notes) are
      omitted; each omission is noted at the structure.
-/
import Mathlib

namespace StratCap

/-!  ## Waterfall engine
     From src/backend/api-gateway/src/services/waterfall_engine.py  -/

inductive WaterfallTier where
  | return_of_capital
  | preferred_return
  | catch_up
  | promoted_carry
  | remaining_proceeds
deriving DecidableEq

/-- `WaterfallTierDefinition` (waterfall_engine.py lines 35-59).  The unused
condition/timing fields (`applies_to_fund_types`, `minimum_threshold`,
`maximum_amount`, `effective_date`, `expiration_date`) and the display fields
(`name`, `description`) are omitted: the engine never reads them. -/
structure WaterfallTierDefinition where
  tier_id : String
  tier_type : WaterfallTier
  hurdle_rate : Option ℚ := none
  catch_up_rate : Option ℚ := none
  carry_rate : Option ℚ := none
  lp_percentage : ℚ := 100
  gp_percentage : ℚ := 0
deriving DecidableEq

/-- `InvestorPosition` (waterfall_engine.py lines 62-84); the display field
`investor_name` and the unused `side_letter_provisions` are omitted. -/
structure InvestorPosition where
  investor_id : String
  total_contributions : ℚ
  unreturned_contributions : ℚ
  preferred_return_shortfall : ℚ := 0
  cumulative_preferred_return : ℚ := 0
  prior_distributions : ℚ := 0
  prior_carry_distributions : ℚ := 0
  ownership_percentage : ℚ
deriving DecidableEq

/-- `WaterfallCalculationInput` (waterfall_engine.py lines 87-110).  The
fields `distribution_type`, `fund_committed_capital`, `fund_called_capital`,
`fund_prior_distributions`, `portfolio_values`, `fund_expenses` and
`management_fee_offset` are omitted: no code path of the engine reads them. -/
structure WaterfallCalculationInput where
  fund_id : String
  calculation_date : Int
  total_distribution_amount : ℚ
  fund_inception_date : Int
  waterfall_tiers : List WaterfallTierDefinition
  investor_positions : List InvestorPosition
deriving DecidableEq

/-- `TierDistribution` (waterfall_engine.py lines 113-133); the per-investor
dict becomes an association list in insertion order, and the human-readable
`calculation_notes` are omitted. -/
structure TierDistribution where
  tier_id : String
  tier_type : WaterfallTier
  available_amount : ℚ
  distributed_amount : ℚ
  remaining_amount : ℚ
  lp_amount : ℚ
  gp_amount : ℚ
  investor_distributions : List (String × ℚ)
deriving DecidableEq

/-- `WaterfallCalculationResult` (waterfall_engine.py lines 136-162); the
generated `calculation_id`, the timestamps, `calculated_by` and the derived
reporting view `investor_summaries` are omitted (no claim concerns them). -/
structure WaterfallCalculationResult where
  fund_id : String
  total_distribution : ℚ
  tier_distributions : List TierDistribution
  lp_total : ℚ
  gp_total : ℚ
  updated_investor_positions : List InvestorPosition
  validation_passed : Bool
  validation_errors : List String
  validation_warnings : List String
deriving DecidableEq

/-- Python truthiness of an `Optional[Decimal]`: `None` and `0` are falsy. -/
def truthyRate : Option ℚ → Option ℚ
  | none => none
  | some r => if r = 0 then none else some r

/-- The freshly initialised `TierDistribution` of
`_calculate_tier_distribution` (lines 276-285). -/
def baseTier (tdef : WaterfallTierDefinition) (avail : ℚ) : TierDistribution :=
  { tier_id := tdef.tier_id
    tier_type := tdef.tier_type
    available_amount := avail
    distributed_amount := 0
    remaining_amount := avail
    lp_amount := 0
    gp_amount := 0
    investor_distributions := [] }

def totalUnreturned (ps : List InvestorPosition) : ℚ :=
  (ps.map (fun p => p.unreturned_contributions)).sum

/-- `_calculate_return_of_capital` (lines 304-340).  In the branch below the
guard, `total > 0` holds, so the source's re-check `total_unreturned > 0`
inside the loop is redundant and elided. -/
def calcReturnOfCapital (tdef : WaterfallTierDefinition) (avail : ℚ)
    (ps : List InvestorPosition) : TierDistribution × List InvestorPosition :=
  let base := baseTier tdef avail
  let total := totalUnreturned ps
  if total ≤ 0 then (base, ps)
  else
    let d := min avail total
    let dists := ps.filterMap (fun p =>
      if 0 < p.unreturned_contributions then
        some (p.investor_id, p.unreturned_contributions / total * d)
      else none)
    let ps' := ps.map (fun p =>
      if 0 < p.unreturned_contributions then
        let share := p.unreturned_contributions / total * d
        { p with unreturned_contributions := p.unreturned_contributions - share
                 prior_distributions := p.prior_distributions + share }
      else p)
    ({ base with distributed_amount := d
                 lp_amount := d
                 remaining_amount := avail - d
                 investor_distributions := dists }, ps')

/-- `years_since_inception` of `_calculate_preferred_return` (lines 365-367):
`(calculation_date - fund_inception_date).days / 365.25`. -/
def prYears (inp : WaterfallCalculationInput) : ℚ :=
  ((inp.calculation_date - inp.fund_inception_date : Int) : ℚ) / ((36525 : ℚ) / 100)

/-- `_calculate_preferred_return` (lines 342-403).  The first pass stores each
investor's shortfall on the position (a mutation that persists even when the
tier then pays nothing); the second pass distributes pro-rata by shortfall. -/
def calcPreferredReturn (tdef : WaterfallTierDefinition)
    (inp : WaterfallCalculationInput) (avail : ℚ)
    (ps : List InvestorPosition) : TierDistribution × List InvestorPosition :=
  let base := baseTier tdef avail
  match truthyRate tdef.hurdle_rate with
  | none => (base, ps)
  | some hurdle =>
    let years := prYears inp
    let ps1 := ps.map (fun p =>
      let shortfall :=
        max 0 (p.total_contributions * hurdle * years - p.cumulative_preferred_return)
      { p with preferred_return_shortfall := shortfall })
    let total := (ps1.map (fun p => p.preferred_return_shortfall)).sum
    if total ≤ 0 then (base, ps1)
    else
      let d := min avail total
      let dists := ps1.filterMap (fun p =>
        if 0 < p.preferred_return_shortfall then
          some (p.investor_id, p.preferred_return_shortfall / total * d)
        else none)
      let ps2 := ps1.map (fun p =>
        if 0 < p.preferred_return_shortfall then
          let share := p.preferred_return_shortfall / total * d
          { p with cumulative_preferred_return := p.cumulative_preferred_return + share
                   prior_distributions := p.prior_distributions + share }
        else p)
      ({ base with distributed_amount := d
                   lp_amount := d
                   remaining_amount := avail - d
                   investor_distributions := dists }, ps2)

/-- `_calculate_catch_up` (lines 405-447).  The GP receives the whole tier;
no per-investor distribution is recorded and the positions are not touched.
(When `catch_up_rate = 1` the source's `Decimal` division by `1 - 1` raises;
in ℚ the total division gives `c / 0 = 0`, a state unreachable under any
claim considered here.) -/
def calcCatchUp (tdef : WaterfallTierDefinition) (avail : ℚ)
    (ps : List InvestorPosition) : TierDistribution × List InvestorPosition :=
  let base := baseTier tdef avail
  match truthyRate tdef.catch_up_rate with
  | none => (base, ps)
  | some c =>
    let total_lp := (ps.map (fun p => p.prior_distributions)).sum
    let target_gp_carry := total_lp * (c / (1 - c))
    let total_gp := (ps.map (fun p => p.prior_carry_distributions)).sum
    let catch_up_needed := max 0 (target_gp_carry - total_gp)
    if catch_up_needed ≤ 0 then (base, ps)
    else
      let d := min avail catch_up_needed
      ({ base with distributed_amount := d
                   gp_amount := d
                   remaining_amount := avail - d }, ps)

/-- The shared LP pro-rata-by-ownership block of `_calculate_promoted_carry`
(lines 470-484) and `_calculate_remaining_proceeds` (lines 512-526). -/
def distributeByOwnership (lp_amount : ℚ) (ps : List InvestorPosition) :
    List (String × ℚ) × List InvestorPosition :=
  let total := (ps.map (fun p => p.ownership_percentage)).sum
  if 0 < total then
    (ps.map (fun p =>
        (p.investor_id, lp_amount * ((p.ownership_percentage / 100) / (total / 100)))),
     ps.map (fun p =>
        let share := lp_amount * ((p.ownership_percentage / 100) / (total / 100))
        { p with prior_distributions := p.prior_distributions + share }))
  else ([], ps)

/-- `_calculate_promoted_carry` (lines 449-493). -/
def calcPromotedCarry (tdef : WaterfallTierDefinition) (avail : ℚ)
    (ps : List InvestorPosition) : TierDistribution × List InvestorPosition :=
  let base := baseTier tdef avail
  match truthyRate tdef.carry_rate with
  | none => (base, ps)
  | some c =>
    let lp_pct := 1 - c
    let gp_pct := c
    let d := avail
    let lp := d * lp_pct
    let gp := d * gp_pct
    let dp := distributeByOwnership lp ps
    ({ base with distributed_amount := d
                 lp_amount := lp
                 gp_amount := gp
                 remaining_amount := 0
                 investor_distributions := dp.1 }, dp.2)

/-- `_calculate_remaining_proceeds` (lines 495-535). -/
def calcRemainingProceeds (tdef : WaterfallTierDefinition) (avail : ℚ)
    (ps : List InvestorPosition) : TierDistribution × List InvestorPosition :=
  let base := baseTier tdef avail
  let lp_pct := tdef.lp_percentage / 100
  let gp_pct := tdef.gp_percentage / 100
  let d := avail
  let lp := d * lp_pct
  let gp := d * gp_pct
  let dp := distributeByOwnership lp ps
  ({ base with distributed_amount := d
               lp_amount := lp
               gp_amount := gp
               remaining_amount := 0
               investor_distributions := dp.1 }, dp.2)

/-- `_calculate_tier_distribution` (lines 267-302). -/
def calcTierDistribution (inp : WaterfallCalculationInput)
    (tdef : WaterfallTierDefinition) (avail : ℚ)
    (ps : List InvestorPosition) : TierDistribution × List InvestorPosition :=
  match tdef.tier_type with
  | .return_of_capital => calcReturnOfCapital tdef avail ps
  | .preferred_return => calcPreferredReturn tdef inp avail ps
  | .catch_up => calcCatchUp tdef avail ps
  | .promoted_carry => calcPromotedCarry tdef avail ps
  | .remaining_proceeds => calcRemainingProceeds tdef avail ps

/-- Update the first position whose id matches (the `next(...)` lookup of
`_update_positions_for_tier`, line 547). -/
def updateFirstPos (ps : List InvestorPosition) (id : String)
    (f : InvestorPosition → InvestorPosition) : List InvestorPosition :=
  match ps with
  | [] => []
  | p :: rest => if p.investor_id = id then f p :: rest else p :: updateFirstPos rest id f

/-- `_update_positions_for_tier` (lines 537-553): carry distributions are
tracked on positions only for catch-up and promoted-carry tiers. -/
def updatePositionsForTier (ps : List InvestorPosition) (td : TierDistribution)
    (tdef : WaterfallTierDefinition) : List InvestorPosition :=
  td.investor_distributions.foldl (fun acc pair =>
    if tdef.tier_type = .catch_up ∨ tdef.tier_type = .promoted_carry then
      updateFirstPos acc pair.1 (fun p =>
        { p with prior_carry_distributions := p.prior_carry_distributions + pair.2 })
    else acc) ps

/-- The tier loop of `calculate_waterfall` (lines 213-231): strictly in list
order, stopping once nothing remains; each tier sees the updated positions. -/
def runTiers (inp : WaterfallCalculationInput) :
    List WaterfallTierDefinition → ℚ → List InvestorPosition →
    List TierDistribution × ℚ × List InvestorPosition
  | [], rem, ps => ([], rem, ps)
  | tdef :: rest, rem, ps =>
    if rem ≤ 0 then ([], rem, ps)
    else
      let step := calcTierDistribution inp tdef rem ps
      let ps2 := updatePositionsForTier step.2 step.1 tdef
      let next := runTiers inp rest (rem - step.1.distributed_amount) ps2
      (step.1 :: next.1, next.2.1, next.2.2)

/-- `_validate_input` (lines 593-619): pair of (errors, warnings). -/
def validateInput (inp : WaterfallCalculationInput) : List String × List String :=
  let errors :=
    (if inp.total_distribution_amount ≤ 0 then ["Distribution amount must be positive"] else [])
    ++ (if inp.waterfall_tiers = [] then ["No waterfall tiers defined"] else [])
    ++ (if inp.investor_positions = [] then ["No investor positions provided"] else [])
  let total_ownership := ((inp.investor_positions.map (fun p => p.ownership_percentage)).sum : ℚ)
  let warnings :=
    (if (1 : ℚ) / 100 < |total_ownership - 100| then ["Total ownership is not 100%"] else [])
    ++ (if WaterfallTier.return_of_capital ∈ inp.waterfall_tiers.map (fun t => t.tier_type)
        then [] else ["No return of capital tier defined"])
  (errors, warnings)

/-- `calculate_waterfall` (lines 177-265). -/
def calculateWaterfall (inp : WaterfallCalculationInput) : WaterfallCalculationResult :=
  let v := validateInput inp
  if v.1 = [] then
    let run := runTiers inp inp.waterfall_tiers inp.total_distribution_amount
                 inp.investor_positions
    { fund_id := inp.fund_id
      total_distribution := inp.total_distribution_amount
      tier_distributions := run.1
      lp_total := (run.1.map (fun t => t.lp_amount)).sum
      gp_total := (run.1.map (fun t => t.gp_amount)).sum
      updated_investor_positions := run.2.2
      validation_passed := true
      validation_errors := []
      validation_warnings := v.2 }
  else
    { fund_id := inp.fund_id
      total_distribution := inp.total_distribution_amount
      tier_distributions := []
      lp_total := 0
      gp_total := 0
      updated_investor_positions := inp.investor_positions
      validation_passed := false
      validation_errors := v.1
      validation_warnings := v.2 }

/-!  ### Waterfall invariants (claims C1, C2, C10)  -/

def sumDistributed (tds : List TierDistribution) : ℚ :=
  (tds.map (fun t => t.distributed_amount)).sum

def sumLpAmount (tds : List TierDistribution) : ℚ :=
  (tds.map (fun t => t.lp_amount)).sum

def sumGpAmount (tds : List TierDistribution) : ℚ :=
  (tds.map (fun t => t.gp_amount)).sum

theorem sumDistributed_cons (td : TierDistribution) (tds : List TierDistribution) :
    sumDistributed (td :: tds) = td.distributed_amount + sumDistributed tds := by
  simp [sumDistributed]

theorem sumLpAmount_cons (td : TierDistribution) (tds : List TierDistribution) :
    sumLpAmount (td :: tds) = td.lp_amount + sumLpAmount tds := by
  simp [sumLpAmount]

theorem sumGpAmount_cons (td : TierDistribution) (tds : List TierDistribution) :
    sumGpAmount (td :: tds) = td.gp_amount + sumGpAmount tds := by
  simp [sumGpAmount]

/-- Every tier records the amount it was offered, distributes a nonnegative
amount, and never distributes more than was available. -/
theorem calcTier_bounds (inp : WaterfallCalculationInput)
    (tdef : WaterfallTierDefinition) (avail : ℚ) (ps : List InvestorPosition)
    (h : 0 < avail) :
    (calcTierDistribution inp tdef avail ps).1.available_amount = avail ∧
    0 ≤ (calcTierDistribution inp tdef avail ps).1.distributed_amount ∧
    (calcTierDistribution inp tdef avail ps).1.distributed_amount ≤ avail := by
  cases htype : tdef.tier_type
  case return_of_capital =>
    simp only [calcTierDistribution, htype, calcReturnOfCapital]
    split
    · simp [baseTier, h.le]
    · rename_i htot
      push_neg at htot
      exact ⟨rfl, le_min h.le htot.le, min_le_left _ _⟩
  case preferred_return =>
    simp only [calcTierDistribution, htype, calcPreferredReturn]
    cases htr : truthyRate tdef.hurdle_rate
    · simp [baseTier, h.le]
    · simp only []
      split
      · simp [baseTier, h.le]
      · rename_i htot
        push_neg at htot
        exact ⟨rfl, le_min h.le htot.le, min_le_left _ _⟩
  case catch_up =>
    simp only [calcTierDistribution, htype, calcCatchUp]
    cases htr : truthyRate tdef.catch_up_rate
    · simp [baseTier, h.le]
    · simp only []
      split
      · simp [baseTier, h.le]
      · rename_i hneed
        push_neg at hneed
        exact ⟨rfl, le_min h.le hneed.le, min_le_left _ _⟩
  case promoted_carry =>
    simp only [calcTierDistribution, htype, calcPromotedCarry]
    cases htr : truthyRate tdef.carry_rate
    · simp [baseTier, h.le]
    · exact ⟨rfl, h.le, le_refl _⟩
  case remaining_proceeds =>
    simp only [calcTierDistribution, htype, calcRemainingProceeds]
    exact ⟨rfl, h.le, le_refl _⟩

/-- In every tier except a remaining-proceeds tier whose configured LP and GP
percentages do not add to 100, the LP and GP amounts partition the
distributed amount. -/
theorem calcTier_split (inp : WaterfallCalculationInput)
    (tdef : WaterfallTierDefinition) (avail : ℚ) (ps : List InvestorPosition)
    (h : tdef.tier_type = .remaining_proceeds →
      tdef.lp_percentage + tdef.gp_percentage = 100) :
    (calcTierDistribution inp tdef avail ps).1.lp_amount
      + (calcTierDistribution inp tdef avail ps).1.gp_amount
      = (calcTierDistribution inp tdef avail ps).1.distributed_amount := by
  cases htype : tdef.tier_type
  case return_of_capital =>
    simp only [calcTierDistribution, htype, calcReturnOfCapital]
    split
    · simp [baseTier]
    · simp [baseTier]
  case preferred_return =>
    simp only [calcTierDistribution, htype, calcPreferredReturn]
    cases htr : truthyRate tdef.hurdle_rate
    · simp [baseTier]
    · simp only []
      split
      · simp [baseTier]
      · simp [baseTier]
  case catch_up =>
    simp only [calcTierDistribution, htype, calcCatchUp]
    cases htr : truthyRate tdef.catch_up_rate
    · simp [baseTier]
    · simp only []
      split
      · simp [baseTier]
      · simp [baseTier]
  case promoted_carry =>
    simp only [calcTierDistribution, htype, calcPromotedCarry]
    cases htr : truthyRate tdef.carry_rate
    · simp [baseTier]
    · simp only [baseTier]
      ring
  case remaining_proceeds =>
    have h100 := h htype
    simp only [calcTierDistribution, htype, calcRemainingProceeds, baseTier]
    calc avail * (tdef.lp_percentage / 100) + avail * (tdef.gp_percentage / 100)
        = avail * ((tdef.lp_percentage + tdef.gp_percentage) / 100) := by ring
      _ = avail * (100 / 100) := by rw [h100]
      _ = avail := by norm_num

/-- Invariant of the tier loop: the remaining amount stays nonnegative, the
distributed total accounts exactly for what the loop consumed, and every
produced tier distribution is within its available amount. -/
theorem runTiers_inv (inp : WaterfallCalculationInput)
    (ts : List WaterfallTierDefinition) :
    ∀ (rem : ℚ) (ps : List InvestorPosition), 0 ≤ rem →
      0 ≤ (runTiers inp ts rem ps).2.1 ∧
      sumDistributed (runTiers inp ts rem ps).1 = rem - (runTiers inp ts rem ps).2.1 ∧
      ∀ td ∈ (runTiers inp ts rem ps).1,
        0 ≤ td.distributed_amount ∧ td.distributed_amount ≤ td.available_amount := by
  induction ts with
  | nil =>
    intro rem ps h
    simpa [runTiers, sumDistributed] using h
  | cons tdef rest ih =>
    intro rem ps h
    by_cases hrem : rem ≤ 0
    · simpa [runTiers, hrem, sumDistributed] using h
    · push_neg at hrem
      obtain ⟨hav, hd0, hdle⟩ := calcTier_bounds inp tdef rem ps hrem
      obtain ⟨ih1, ih2, ih3⟩ := ih
        (rem - (calcTierDistribution inp tdef rem ps).1.distributed_amount)
        (updatePositionsForTier (calcTierDistribution inp tdef rem ps).2
          (calcTierDistribution inp tdef rem ps).1 tdef)
        (by linarith)
      simp only [runTiers, if_neg (not_le.mpr hrem)]
      refine ⟨ih1, ?_, ?_⟩
      · rw [sumDistributed_cons, ih2]
        ring
      · intro td htd
        rcases List.mem_cons.mp htd with hhead | htail
        · subst hhead
          exact ⟨hd0, by rw [hav]; exact hdle⟩
        · exact ih3 td htail

/-- LP/GP split accounting of the tier loop, under the proviso that every
remaining-proceeds tier definition splits 100% between LP and GP. -/
theorem runTiers_split (inp : WaterfallCalculationInput)
    (ts : List WaterfallTierDefinition)
    (h : ∀ t ∈ ts, t.tier_type = .remaining_proceeds →
      t.lp_percentage + t.gp_percentage = 100) :
    ∀ (rem : ℚ) (ps : List InvestorPosition),
      sumLpAmount (runTiers inp ts rem ps).1 + sumGpAmount (runTiers inp ts rem ps).1
        = sumDistributed (runTiers inp ts rem ps).1 := by
  induction ts with
  | nil =>
    intro rem ps
    simp [runTiers, sumDistributed, sumLpAmount, sumGpAmount]
  | cons tdef rest ih =>
    intro rem ps
    by_cases hrem : rem ≤ 0
    · simp [runTiers, hrem, sumDistributed, sumLpAmount, sumGpAmount]
    · have hsplit := calcTier_split inp tdef rem ps (h tdef (List.mem_cons_self _ _))
      have ihr := ih (fun t ht => h t (List.mem_cons_of_mem _ ht))
        (rem - (calcTierDistribution inp tdef rem ps).1.distributed_amount)
        (updatePositionsForTier (calcTierDistribution inp tdef rem ps).2
          (calcTierDistribution inp tdef rem ps).1 tdef)
      simp only [runTiers, if_neg hrem]
      rw [sumLpAmount_cons, sumGpAmount_cons, sumDistributed_cons]
      linarith [hsplit, ihr]

/-- If validation reported no error, the distribution amount is positive. -/
theorem validateInput_pos (inp : WaterfallCalculationInput)
    (hv : (validateInput inp).1 = []) : 0 < inp.total_distribution_amount := by
  by_contra hneg
  rw [not_lt] at hneg
  simp [validateInput, hneg] at hv

/-- On a validation-clean input, `calculate_waterfall` reports the tier list
produced by the tier loop. -/
theorem calculateWaterfall_tiers (inp : WaterfallCalculationInput)
    (hv : (validateInput inp).1 = []) :
    (calculateWaterfall inp).tier_distributions
      = (runTiers inp inp.waterfall_tiers inp.total_distribution_amount
          inp.investor_positions).1 := by
  simp [calculateWaterfall, hv]

/-- A validation-clean input on which the LP/GP split does not account for the
distributed amount: a single remaining-proceeds tier configured with
`lp_percentage = 50` and `gp_percentage = 30`. -/
def c1badInput : WaterfallCalculationInput :=
  { fund_id := "fund-bad"
    calculation_date := 0
    total_distribution_amount := 100
    fund_inception_date := 0
    waterfall_tiers :=
      [{ tier_id := "rem", tier_type := .remaining_proceeds,
         lp_percentage := 50, gp_percentage := 30 }]
    investor_positions :=
      [{ investor_id := "A", total_contributions := 0,
         unreturned_contributions := 0, ownership_percentage := 100 }] }

/-- C1, counterexample: a waterfall calculation that passes input validation
(the validator only checks positivity, nonempty tiers and nonempty positions)
in which `Σ lp_amount + Σ gp_amount ≠ Σ distributed_amount`: the
remaining-proceeds tier pays out `available × lp% / 100` and
`available × gp% / 100`, which only partition the distributed amount when the
configured percentages add to 100. -/
theorem c1_counterexample :
    (validateInput c1badInput).1 = [] ∧
    sumLpAmount (calculateWaterfall c1badInput).tier_distributions
      + sumGpAmount (calculateWaterfall c1badInput).tier_distributions
      ≠ sumDistributed (calculateWaterfall c1badInput).tier_distributions := by
  norm_num [calculateWaterfall, validateInput, c1badInput, runTiers,
    calcTierDistribution, calcRemainingProceeds, distributeByOwnership,
    baseTier, updatePositionsForTier, sumLpAmount, sumGpAmount,
    sumDistributed, min_def, List.cons_ne_nil]

/-- C1 (amended): for every waterfall calculation that passes input
validation, every tier in the result satisfies
`distributed_amount ≤ available_amount`, and the total distributed across all
tiers never exceeds the input `total_distribution_amount`; moreover, provided
that every remaining-proceeds tier definition has
`lp_percentage + gp_percentage = 100`, the sum over all tiers of `lp_amount`
plus the sum of `gp_amount` equals the sum of `distributed_amount`. -/
theorem c1_waterfall_invariants (inp : WaterfallCalculationInput)
    (hv : (validateInput inp).1 = []) :
    (∀ td ∈ (calculateWaterfall inp).tier_distributions,
        td.distributed_amount ≤ td.available_amount) ∧
    sumDistributed (calculateWaterfall inp).tier_distributions
      ≤ inp.total_distribution_amount ∧
    ((∀ t ∈ inp.waterfall_tiers, t.tier_type = .remaining_proceeds →
        t.lp_percentage + t.gp_percentage = 100) →
      sumLpAmount (calculateWaterfall inp).tier_distributions
        + sumGpAmount (calculateWaterfall inp).tier_distributions
        = sumDistributed (calculateWaterfall inp).tier_distributions) := by
  have hpos := validateInput_pos inp hv
  rw [calculateWaterfall_tiers inp hv]
  obtain ⟨h1, h2, h3⟩ := runTiers_inv inp inp.waterfall_tiers
    inp.total_distribution_amount inp.investor_positions hpos.le
  exact ⟨fun td htd => (h3 td htd).2, by linarith,
    fun hall => runTiers_split inp _ hall _ _⟩

/-- A well-formed two-tier waterfall input used to exercise
`c1_waterfall_invariants` at a concrete point. -/
def c1goodInput : WaterfallCalculationInput :=
  { fund_id := "fund-good"
    calculation_date := 365
    total_distribution_amount := 100
    fund_inception_date := 0
    waterfall_tiers :=
      [{ tier_id := "roc", tier_type := .return_of_capital },
       { tier_id := "rem", tier_type := .remaining_proceeds,
         lp_percentage := 80, gp_percentage := 20 }]
    investor_positions :=
      [{ investor_id := "A", total_contributions := 50,
         unreturned_contributions := 50, ownership_percentage := 100 }] }

theorem c1_waterfall_invariants_witness :
    (validateInput c1goodInput).1 = [] ∧
    ((∀ td ∈ (calculateWaterfall c1goodInput).tier_distributions,
        td.distributed_amount ≤ td.available_amount) ∧
      sumDistributed (calculateWaterfall c1goodInput).tier_distributions
        ≤ c1goodInput.total_distribution_amount ∧
      ((∀ t ∈ c1goodInput.waterfall_tiers, t.tier_type = .remaining_proceeds →
          t.lp_percentage + t.gp_percentage = 100) →
        sumLpAmount (calculateWaterfall c1goodInput).tier_distributions
          + sumGpAmount (calculateWaterfall c1goodInput).tier_distributions
          = sumDistributed (calculateWaterfall c1goodInput).tier_distributions)) :=
  ⟨by norm_num [validateInput, c1goodInput, List.cons_ne_nil],
    c1_waterfall_invariants c1goodInput
      (by norm_num [validateInput, c1goodInput, List.cons_ne_nil])⟩

/-- The spec's pro-rata share of the return-of-capital tier: an investor with
unreturned contributions receives their unreturned share of
`min(available, Σ unreturned_contributions)`. -/
def rocSpecShare (avail : ℚ) (ps : List InvestorPosition)
    (p : InvestorPosition) : ℚ :=
  if 0 < totalUnreturned ps ∧ 0 < p.unreturned_contributions then
    p.unreturned_contributions / totalUnreturned ps * min avail (totalUnreturned ps)
  else 0

/-- The spec's per-investor position update for the return-of-capital tier. -/
def rocSpecUpdate (avail : ℚ) (ps : List InvestorPosition)
    (p : InvestorPosition) : InvestorPosition :=
  { p with unreturned_contributions :=
             p.unreturned_contributions - rocSpecShare avail ps p
           prior_distributions :=
             p.prior_distributions + rocSpecShare avail ps p }

/-- Scenario C of the spec: $5,000,000 available, unreturned contributions of
$4,000,000 and $6,000,000, a return-of-capital tier followed by a
remaining-proceeds tier. -/
def scenarioC : WaterfallCalculationInput :=
  { fund_id := "fund-c"
    calculation_date := 0
    total_distribution_amount := 5000000
    fund_inception_date := 0
    waterfall_tiers :=
      [{ tier_id := "roc", tier_type := .return_of_capital },
       { tier_id := "rem", tier_type := .remaining_proceeds }]
    investor_positions :=
      [{ investor_id := "A", total_contributions := 4000000,
         unreturned_contributions := 4000000, ownership_percentage := 40 },
       { investor_id := "B", total_contributions := 6000000,
         unreturned_contributions := 6000000, ownership_percentage := 60 }] }

/-- C2: a return-of-capital tier distributes exactly
`min(available, Σ unreturned_contributions)`, and updates each investor
position by its pro-rata share: `unreturned_contributions` decreases and
`prior_distributions` increases by that share.  Concretely (Scenario C), with
$5,000,000 available against $4,000,000 and $6,000,000 unreturned, the tier
distributes the full $5,000,000 split 40%/60% and later tiers see $0: the
result of the two-tier run contains a single tier distribution. -/
theorem c2_return_of_capital (tdef : WaterfallTierDefinition) (avail : ℚ)
    (ps : List InvestorPosition) (ha : 0 ≤ avail)
    (hp : ∀ p ∈ ps, 0 ≤ p.unreturned_contributions) :
    (calcReturnOfCapital tdef avail ps).1.distributed_amount
      = min avail (totalUnreturned ps) ∧
    (calcReturnOfCapital tdef avail ps).2 = ps.map (rocSpecUpdate avail ps) ∧
    ((calculateWaterfall scenarioC).tier_distributions.map
        (fun t => t.distributed_amount) = [5000000] ∧
      (calculateWaterfall scenarioC).tier_distributions.map
        (fun t => t.investor_distributions)
        = [[("A", 2000000), ("B", 3000000)]] ∧
      (calculateWaterfall scenarioC).updated_investor_positions.map
        (fun p => (p.unreturned_contributions, p.prior_distributions))
        = [(2000000, 2000000), (3000000, 3000000)]) := by
  have hsum : 0 ≤ totalUnreturned ps := by
    refine List.sum_nonneg ?_
    intro x hx
    obtain ⟨p, hmem, rfl⟩ := List.mem_map.mp hx
    exact hp p hmem
  have hscen : (calculateWaterfall scenarioC).tier_distributions.map
        (fun t => t.distributed_amount) = [5000000] ∧
      (calculateWaterfall scenarioC).tier_distributions.map
        (fun t => t.investor_distributions)
        = [[("A", 2000000), ("B", 3000000)]] ∧
      (calculateWaterfall scenarioC).updated_investor_positions.map
        (fun p => (p.unreturned_contributions, p.prior_distributions))
        = [(2000000, 2000000), (3000000, 3000000)] := by
    norm_num [calculateWaterfall, validateInput, scenarioC, runTiers,
      calcTierDistribution, calcReturnOfCapital, totalUnreturned, baseTier,
      updatePositionsForTier, min_def, List.cons_ne_nil, List.filterMap_cons,
      updateFirstPos]
    decide
  refine ⟨?_, ?_, hscen⟩
  · by_cases htot : totalUnreturned ps ≤ 0
    · have h0 : totalUnreturned ps = 0 := le_antisymm htot hsum
      simp [calcReturnOfCapital, htot, baseTier, h0, min_eq_right ha]
    · simp [calcReturnOfCapital, htot, baseTier]
  · by_cases htot : totalUnreturned ps ≤ 0
    · have h0 : totalUnreturned ps = 0 := le_antisymm htot hsum
      simp only [calcReturnOfCapital, if_pos htot]
      have hid : ∀ p ∈ ps, rocSpecUpdate avail ps p = p := by
        intro p _
        simp [rocSpecUpdate, rocSpecShare, h0]
      calc ps = ps.map id := (List.map_id ps).symm
        _ = ps.map (rocSpecUpdate avail ps) :=
            List.map_congr_left (fun p hp => (hid p hp).symm)
    · have htot' : 0 < totalUnreturned ps := lt_of_not_le htot
      simp only [calcReturnOfCapital, if_neg htot]
      refine List.map_congr_left ?_
      intro p _
      by_cases hu : 0 < p.unreturned_contributions
      · simp [rocSpecUpdate, rocSpecShare, hu, htot', if_pos]
      · simp [rocSpecUpdate, rocSpecShare, hu, htot']

theorem c2_return_of_capital_witness :
    (0 : ℚ) ≤ 5000000 ∧
    (∀ p ∈ scenarioC.investor_positions, 0 ≤ p.unreturned_contributions) ∧
    ((calcReturnOfCapital { tier_id := "roc", tier_type := .return_of_capital }
        5000000 scenarioC.investor_positions).1.distributed_amount
      = min 5000000 (totalUnreturned scenarioC.investor_positions) ∧
    (calcReturnOfCapital { tier_id := "roc", tier_type := .return_of_capital }
        5000000 scenarioC.investor_positions).2
      = scenarioC.investor_positions.map
          (rocSpecUpdate 5000000 scenarioC.investor_positions) ∧
    ((calculateWaterfall scenarioC).tier_distributions.map
        (fun t => t.distributed_amount) = [5000000] ∧
      (calculateWaterfall scenarioC).tier_distributions.map
        (fun t => t.investor_distributions)
        = [[("A", 2000000), ("B", 3000000)]] ∧
      (calculateWaterfall scenarioC).updated_investor_positions.map
        (fun p => (p.unreturned_contributions, p.prior_distributions))
        = [(2000000, 2000000), (3000000, 3000000)])) :=
  ⟨by norm_num, by norm_num [scenarioC],
    c2_return_of_capital { tier_id := "roc", tier_type := .return_of_capital }
      5000000 scenarioC.investor_positions (by norm_num)
      (by norm_num [scenarioC])⟩

/-- C10: processing a catch-up tier records no per-investor distributions and
leaves every investor position (including `prior_carry_distributions`)
unchanged — `_calculate_catch_up` only sets the tier-level GP amount, and
`_update_positions_for_tier` iterates over the (empty) per-investor
distribution map, so GP catch-up receipts never reach the position state that
a later catch-up computation reads. -/
theorem c10_catch_up_frame (inp : WaterfallCalculationInput)
    (tdef : WaterfallTierDefinition) (avail : ℚ) (ps : List InvestorPosition)
    (h : tdef.tier_type = .catch_up) :
    (calcTierDistribution inp tdef avail ps).1.investor_distributions = [] ∧
    updatePositionsForTier (calcTierDistribution inp tdef avail ps).2
      (calcTierDistribution inp tdef avail ps).1 tdef = ps := by
  have hsame : (calcTierDistribution inp tdef avail ps).1.investor_distributions = []
      ∧ (calcTierDistribution inp tdef avail ps).2 = ps := by
    simp only [calcTierDistribution, h, calcCatchUp]
    cases htr : truthyRate tdef.catch_up_rate
    · simp [baseTier]
    · simp only []
      split
      · simp [baseTier]
      · simp [baseTier]
  refine ⟨hsame.1, ?_⟩
  rw [updatePositionsForTier, hsame.1, hsame.2]
  rfl

def c10Tier : WaterfallTierDefinition :=
  { tier_id := "cu", tier_type := .catch_up, catch_up_rate := some (1/5) }

/-- A position with prior LP distributions, so that a catch-up tier pays the
GP a positive amount. -/
def c10Pos : InvestorPosition :=
  { investor_id := "A", total_contributions := 1000,
    unreturned_contributions := 0, prior_distributions := 1000,
    ownership_percentage := 100 }

def c10Input : WaterfallCalculationInput :=
  { fund_id := "fund-cu"
    calculation_date := 0
    total_distribution_amount := 100
    fund_inception_date := 0
    waterfall_tiers := [c10Tier]
    investor_positions := [c10Pos] }

theorem c10_catch_up_frame_witness :
    c10Tier.tier_type = WaterfallTier.catch_up ∧
    0 < (calcTierDistribution c10Input c10Tier 100 [c10Pos]).1.distributed_amount ∧
    ((calcTierDistribution c10Input c10Tier 100 [c10Pos]).1.investor_distributions = [] ∧
      updatePositionsForTier (calcTierDistribution c10Input c10Tier 100 [c10Pos]).2
        (calcTierDistribution c10Input c10Tier 100 [c10Pos]).1 c10Tier = [c10Pos]) :=
  ⟨rfl,
    by norm_num [calcTierDistribution, calcCatchUp, c10Tier, c10Pos,
      truthyRate, baseTier, min_def],
    c10_catch_up_frame c10Input c10Tier 100 [c10Pos] rfl⟩

/-!  ## Event calculation engine
     From src/backend/api-gateway/src/models/fund_events.py  -/

inductive CalculationMethod where
  | pro_rata
  | flat_amount
  | tiered
  | custom
deriving DecidableEq

/-- The variant payloads of `CapitalCallEvent` (fund_events.py lines 71-99),
`DistributionEvent` (lines 102-126) and `ManagementFeeEvent` (lines 129-146).
Only the fields read by `EventCalculationEngine` are kept; the
scheduling/workflow fields (call number, due dates, tax year, payment terms)
are omitted.  `generic` stands for the remaining event types, which the
engine routes to `_calculate_generic_event`. -/
inductive EventDetails where
  | capitalCall (investment_amount management_fee_amount expense_amount
      organizational_expense_amount : ℚ) (minimum_call_amount : Option ℚ)
      (allow_partial_funding : Bool)
  | distribution (gross_distribution management_fee_offset expense_offset : ℚ)
      (withholding_required : Bool) (default_withholding_rate : ℚ)
  | managementFee (fee_rate : ℚ) (prorate_for_period : Bool)
      (days_in_period : Int)
  | generic
deriving DecidableEq

/-- `FundEvent` (fund_events.py lines 35-68) restricted to the fields the
calculation engine reads; `event_date`/`effective_date`, status/workflow and
metadata fields are omitted.  The subtype dispatch on `event_type` becomes
the `details` discriminant. -/
structure FundEvent where
  event_id : String
  fund_id : String
  record_date : Int
  total_amount : ℚ
  calculation_method : CalculationMethod := .pro_rata
  calculation_basis : String := "commitment"
  details : EventDetails
deriving DecidableEq

/-- One entry of the `investor_commitments` list of dicts consumed by
`EventCalculationEngine.calculate_event`.  Defaults model the `.get(..., 0)`
and `.get(...)` accesses of the source. -/
structure InvestorCommitment where
  investor_id : String
  commitment_id : String
  commitment_amount : ℚ
  paid_in_amount : ℚ := 0
  nav_amount : ℚ := 0
  commitment_date : Option Int := none
  status : String := "active"
  withholding_rate : Option ℚ := none
deriving DecidableEq

/-- `InvestorEventCalculation` (fund_events.py lines 149-176).  The
timestamp-generated `calculation_id`, `calculation_status`,
`override_reason` and `created_at` are omitted; the pydantic `ge`/`le` field
bounds are not enforced by the model (they are constructor-time checks in
the source). -/
structure InvestorEventCalculation where
  event_id : String
  investor_id : String
  commitment_id : String
  ownership_percentage : ℚ
  calculation_basis_amount : ℚ
  gross_amount : ℚ
  management_fee_offset : ℚ := 0
  expense_offset : ℚ := 0
  withholding_amount : ℚ := 0
  net_amount : ℚ
  investment_portion : Option ℚ := none
  management_fee_portion : Option ℚ := none
  expense_portion : Option ℚ := none
deriving DecidableEq

/-- `EventProcessingResult` (fund_events.py lines 179-199); the generated
`processing_id` and `processed_at` timestamp are omitted. -/
structure EventProcessingResult where
  event_id : String
  total_investors_processed : Nat
  total_gross_amount : ℚ
  total_net_amount : ℚ
  total_withholding : ℚ
  investor_calculations : List InvestorEventCalculation
  validation_errors : List String
  validation_warnings : List String
  processing_status : String
deriving DecidableEq

/-- `_is_investor_eligible` (lines 469-481): excluded when the commitment
date is after the record date or the status is not active.  (A `date` value
is always truthy in Python, so `None` alone skips the date check.) -/
def isInvestorEligible (c : InvestorCommitment) (record_date : Int) : Bool :=
  (match c.commitment_date with
   | some d => decide (d ≤ record_date)
   | none => true)
  && decide (c.status = "active")

/-- The basis selection of `_get_calculation_basis_amounts` (lines 323-331). -/
def basisAmount (basis : String) (c : InvestorCommitment) : ℚ :=
  if basis = "commitment" then c.commitment_amount
  else if basis = "paid_in" then c.paid_in_amount
  else if basis = "nav" then c.nav_amount
  else c.commitment_amount

/-- Python `dict` insertion: overwrite in place, else append. -/
def dictInsert (k : String) (v : ℚ) : List (String × ℚ) → List (String × ℚ)
  | [] => [(k, v)]
  | (k', v') :: rest => if k' = k then (k, v) :: rest else (k', v') :: dictInsert k v rest

/-- Python `dict` lookup (first — and with distinct keys, only — match). -/
def lookupAmount (k : String) : List (String × ℚ) → Option ℚ
  | [] => none
  | (k', v) :: rest => if k' = k then some v else lookupAmount k rest

/-- `_get_calculation_basis_amounts` (lines 308-333): a dict keyed by
investor id over the eligible commitments. -/
def getCalculationBasisAmounts (ev : FundEvent) (cs : List InvestorCommitment) :
    List (String × ℚ) :=
  cs.foldl (fun acc c =>
    if isInvestorEligible c ev.record_date then
      dictInsert c.investor_id (basisAmount ev.calculation_basis c) acc
    else acc) []

/-- `total_basis = sum(basis_amounts.values())` (line 234). -/
def totalBasis (ev : FundEvent) (cs : List InvestorCommitment) : ℚ :=
  ((getCalculationBasisAmounts ev cs).map Prod.snd).sum

/-- `_calculate_capital_call` (lines 335-375).  Note line 348: the
non-pro-rata branch divides by `len([commitment])`, a one-element list, so
it charges each investor the whole event amount. -/
def calcCapitalCall (ev : FundEvent) (c : InvestorCommitment)
    (investment_amount management_fee_amount expense_amount : ℚ)
    (minimum_call_amount : Option ℚ) (allow_partial_funding : Bool)
    (basis ownership : ℚ) : InvestorEventCalculation :=
  let gross := if ev.calculation_method = .pro_rata
    then ev.total_amount * ownership / 100
    else ev.total_amount / 1
  let investment_portion := investment_amount * ownership / 100
  let mgmt_fee_portion := management_fee_amount * ownership / 100
  let expense_portion := expense_amount * ownership / 100
  let zeroed := match truthyRate minimum_call_amount with
    | some m => decide (gross < m) && !allow_partial_funding
    | none => false
  { event_id := ev.event_id
    investor_id := c.investor_id
    commitment_id := c.commitment_id
    ownership_percentage := ownership
    calculation_basis_amount := basis
    gross_amount := if zeroed then 0 else gross
    net_amount := if zeroed then 0 else gross
    investment_portion := some (if zeroed then 0 else investment_portion)
    management_fee_portion := some (if zeroed then 0 else mgmt_fee_portion)
    expense_portion := some (if zeroed then 0 else expense_portion) }

/-- `_calculate_distribution` (lines 377-415). -/
def calcDistribution (ev : FundEvent) (c : InvestorCommitment)
    (gross_distribution management_fee_offset expense_offset : ℚ)
    (withholding_required : Bool) (default_withholding_rate : ℚ)
    (basis ownership : ℚ) : InvestorEventCalculation :=
  let gross := gross_distribution * ownership / 100
  let mgmt_fee_offset := management_fee_offset * ownership / 100
  let exp_offset := expense_offset * ownership / 100
  let withholding := if withholding_required
    then gross * (c.withholding_rate.getD default_withholding_rate)
    else 0
  let net := max (gross - mgmt_fee_offset - exp_offset - withholding) 0
  { event_id := ev.event_id
    investor_id := c.investor_id
    commitment_id := c.commitment_id
    ownership_percentage := ownership
    calculation_basis_amount := basis
    gross_amount := gross
    management_fee_offset := mgmt_fee_offset
    expense_offset := exp_offset
    withholding_amount := withholding
    net_amount := net }

/-- `_calculate_management_fee` (lines 417-445). -/
def calcManagementFee (ev : FundEvent) (c : InvestorCommitment)
    (fee_rate : ℚ) (prorate_for_period : Bool) (days_in_period : Int)
    (basis ownership : ℚ) : InvestorEventCalculation :=
  let annual_fee := basis * fee_rate
  let gross := if prorate_for_period
    then annual_fee * ((days_in_period : ℚ) / 365)
    else annual_fee
  { event_id := ev.event_id
    investor_id := c.investor_id
    commitment_id := c.commitment_id
    ownership_percentage := ownership
    calculation_basis_amount := basis
    gross_amount := gross
    net_amount := gross }

/-- `_calculate_generic_event` (lines 447-467). -/
def calcGenericEvent (ev : FundEvent) (c : InvestorCommitment)
    (basis ownership : ℚ) : InvestorEventCalculation :=
  let gross := ev.total_amount * ownership / 100
  { event_id := ev.event_id
    investor_id := c.investor_id
    commitment_id := c.commitment_id
    ownership_percentage := ownership
    calculation_basis_amount := basis
    gross_amount := gross
    net_amount := gross }

/-- The event-type dispatch of `calculate_event` (lines 262-278). -/
def calcForCommitment (ev : FundEvent) (c : InvestorCommitment)
    (basis ownership : ℚ) : InvestorEventCalculation :=
  match ev.details with
  | .capitalCall inv fee exp _org minCall ap =>
      calcCapitalCall ev c inv fee exp minCall ap basis ownership
  | .distribution gd mfo xo wr dr =>
      calcDistribution ev c gd mfo xo wr dr basis ownership
  | .managementFee r p d =>
      calcManagementFee ev c r p d basis ownership
  | .generic => calcGenericEvent ev c basis ownership

/-- `_validate_calculation` (lines 483-504): (errors, warnings). -/
def validateCalculation (k : InvestorEventCalculation) :
    List String × List String :=
  ((if k.net_amount < 0
    then ["Negative net amount for investor " ++ k.investor_id] else []),
   (if k.ownership_percentage = 0 ∧ 0 < k.gross_amount
    then ["Zero ownership but non-zero amount for investor " ++ k.investor_id]
    else [])
   ++ (if 0 < k.gross_amount ∧ k.gross_amount < 1 / 100
       then ["Very small amount for investor " ++ k.investor_id] else []))

/-- `calculate_event` (lines 208-306), with the engine's append-only
`self.calculations` ledger passed explicitly: the function returns the new
ledger and the processing result.  (The generated `calculation_id` keys of
the source's dict are timestamps; the ledger is therefore a list.) -/
def calculateEvent (ledger : List InvestorEventCalculation) (ev : FundEvent)
    (cs : List InvestorCommitment) :
    List InvestorEventCalculation × EventProcessingResult :=
  if totalBasis ev cs = 0 then
    (ledger,
     { event_id := ev.event_id
       total_investors_processed := 0
       total_gross_amount := 0
       total_net_amount := 0
       total_withholding := 0
       investor_calculations := []
       validation_errors := ["No eligible investors found for calculation"]
       validation_warnings := []
       processing_status := "failed" })
  else
    let basis_amounts := getCalculationBasisAmounts ev cs
    let calcs := cs.filterMap (fun c =>
      match lookupAmount c.investor_id basis_amounts with
      | none => none
      | some b => some (calcForCommitment ev c b (b / totalBasis ev cs * 100)))
    let errors := (calcs.map (fun k => (validateCalculation k).1)).flatten
    let warnings := (calcs.map (fun k => (validateCalculation k).2)).flatten
    (ledger ++ calcs,
     { event_id := ev.event_id
       total_investors_processed := calcs.length
       total_gross_amount := (calcs.map (fun k => k.gross_amount)).sum
       total_net_amount := (calcs.map (fun k => k.net_amount)).sum
       total_withholding := (calcs.map (fun k => k.withholding_amount)).sum
       investor_calculations := calcs
       validation_errors := errors
       validation_warnings := warnings
       processing_status := if errors = [] then "completed" else "partial" })

/-!  ### Event calculation lemmas (claims C3, C4, C7, C9)  -/

theorem dictInsert_fresh (k : String) (v : ℚ) :
    ∀ (acc : List (String × ℚ)), (∀ p ∈ acc, p.1 ≠ k) →
      dictInsert k v acc = acc ++ [(k, v)] := by
  intro acc
  induction acc with
  | nil => intro _; rfl
  | cons hd tl ih =>
    intro h
    obtain ⟨k', v'⟩ := hd
    have hk : k' ≠ k := h (k', v') (List.mem_cons_self _ _)
    simp [dictInsert, hk, ih (fun p hp => h p (List.mem_cons_of_mem _ hp))]

theorem lookupAmount_eq_none (k : String) :
    ∀ (l : List (String × ℚ)), (∀ p ∈ l, p.1 ≠ k) → lookupAmount k l = none := by
  intro l
  induction l with
  | nil => intro _; rfl
  | cons hd tl ih =>
    intro h
    obtain ⟨k', v'⟩ := hd
    have hk : k' ≠ k := h (k', v') (List.mem_cons_self _ _)
    simp [lookupAmount, hk, ih (fun p hp => h p (List.mem_cons_of_mem _ hp))]

theorem lookupAmount_map_eq (F : InvestorCommitment → ℚ) :
    ∀ (l : List InvestorCommitment),
      (l.map (fun c => c.investor_id)).Nodup →
      ∀ c ∈ l, lookupAmount c.investor_id
          (l.map (fun c' => (c'.investor_id, F c'))) = some (F c) := by
  intro l
  induction l with
  | nil => intro _ c hc; cases hc
  | cons hd tl ih =>
    intro hnd c hc
    rw [List.map_cons, List.nodup_cons] at hnd
    obtain ⟨hnotin, hndtl⟩ := hnd
    rcases List.mem_cons.mp hc with rfl | htl
    · simp [lookupAmount]
    · have hne : hd.investor_id ≠ c.investor_id := by
        intro he
        exact hnotin (he ▸ List.mem_map_of_mem _ htl)
      simp [lookupAmount, hne, ih hndtl c htl]

theorem getBasisAmounts_aux (ev : FundEvent) :
    ∀ (cs : List InvestorCommitment) (acc : List (String × ℚ)),
      (∀ c ∈ cs, ∀ p ∈ acc, p.1 ≠ c.investor_id) →
      (cs.map (fun c => c.investor_id)).Nodup →
      cs.foldl (fun acc c =>
          if isInvestorEligible c ev.record_date then
            dictInsert c.investor_id (basisAmount ev.calculation_basis c) acc
          else acc) acc
        = acc ++ (cs.filter (fun c => isInvestorEligible c ev.record_date)).map
            (fun c => (c.investor_id, basisAmount ev.calculation_basis c)) := by
  intro cs
  induction cs with
  | nil => intro acc _ _; simp
  | cons c rest ih =>
    intro acc hfresh hnd
    rw [List.map_cons, List.nodup_cons] at hnd
    obtain ⟨hnotin, hndtl⟩ := hnd
    rw [List.foldl_cons]
    by_cases he : isInvestorEligible c ev.record_date = true
    · rw [if_pos he,
        dictInsert_fresh _ _ acc (fun p hp => hfresh c (List.mem_cons_self _ _) p hp),
        ih (acc ++ [(c.investor_id, basisAmount ev.calculation_basis c)]) ?_ hndtl]
      · simp [List.filter_cons, he]
      · intro c' hc' p hp
        rcases List.mem_append.mp hp with hpa | hpb
        · exact hfresh c' (List.mem_cons_of_mem _ hc') p hpa
        · have hpair : p = (c.investor_id, basisAmount ev.calculation_basis c) := by
            simpa using hpb
          subst hpair
          intro heq
          have heq' : c.investor_id = c'.investor_id := heq
          apply hnotin
          rw [heq']
          exact List.mem_map_of_mem _ hc'
    · rw [if_neg he, ih acc (fun c' hc' => hfresh c' (List.mem_cons_of_mem _ hc')) hndtl]
      simp [List.filter_cons, he]

theorem getBasisAmounts_eq (ev : FundEvent) (cs : List InvestorCommitment)
    (hnd : (cs.map (fun c => c.investor_id)).Nodup) :
    getCalculationBasisAmounts ev cs
      = (cs.filter (fun c => isInvestorEligible c ev.record_date)).map
          (fun c => (c.investor_id, basisAmount ev.calculation_basis c)) := by
  have h := getBasisAmounts_aux ev cs [] (by intro c _ p hp; cases hp) hnd
  simpa [getCalculationBasisAmounts] using h

theorem filterMap_eq_of_forall {α β : Type} (f : α → Option β) (p : α → Bool)
    (F : α → β) :
    ∀ (l : List α), (∀ a ∈ l, f a = if p a then some (F a) else none) →
      l.filterMap f = (l.filter p).map F := by
  intro l
  induction l with
  | nil => intro _; rfl
  | cons hd tl ih =>
    intro h
    have hh := h hd (List.mem_cons_self _ _)
    have ht := ih (fun a ha => h a (List.mem_cons_of_mem _ ha))
    by_cases hp : p hd = true
    · simp [List.filterMap_cons, List.filter_cons, hh, hp, ht]
    · simp [List.filterMap_cons, List.filter_cons, hh, hp, ht]

/-- On a run with nonzero total basis and pairwise-distinct investor ids, the
per-investor calculations are exactly the eligible commitments, each mapped
through the event-type dispatch at its basis amount and ownership
percentage `basis / total_basis × 100`. -/
theorem eventCalcs_eq (ledger : List InvestorEventCalculation) (ev : FundEvent)
    (cs : List InvestorCommitment)
    (hnd : (cs.map (fun c => c.investor_id)).Nodup)
    (ht : totalBasis ev cs ≠ 0) :
    (calculateEvent ledger ev cs).2.investor_calculations
      = (cs.filter (fun c => isInvestorEligible c ev.record_date)).map
          (fun c => calcForCommitment ev c (basisAmount ev.calculation_basis c)
              (basisAmount ev.calculation_basis c / totalBasis ev cs * 100)) := by
  have hL := getBasisAmounts_eq ev cs hnd
  have hndf : ((cs.filter (fun c => isInvestorEligible c ev.record_date)).map
      (fun c => c.investor_id)).Nodup :=
    hnd.sublist (List.Sublist.map _ (List.filter_sublist _))
  simp only [calculateEvent, if_neg ht]
  refine filterMap_eq_of_forall _ _ _ cs ?_
  intro c hc
  by_cases he : isInvestorEligible c ev.record_date = true
  · have hmem : c ∈ cs.filter (fun c => isInvestorEligible c ev.record_date) :=
      List.mem_filter.mpr ⟨hc, he⟩
    rw [hL, lookupAmount_map_eq _ _ hndf c hmem]
    simp [he]
  · rw [hL, lookupAmount_eq_none _ _ ?_]
    · simp [he]
    · intro p hp
      obtain ⟨c', hc', rfl⟩ := List.mem_map.mp hp
      obtain ⟨hc'cs, hc'el⟩ := List.mem_filter.mp hc'
      intro heq
      have hcc : c' = c := List.inj_on_of_nodup_map hnd hc'cs hc heq
      rw [hcc] at hc'el
      exact he hc'el

/-- Scenario A of the spec: $10,000,000 commitment out of $40,000,000 total
basis on a $10,000,000 pro-rata capital call computed on commitment basis. -/
def scenarioAEvent : FundEvent :=
  { event_id := "eA", fund_id := "f", record_date := 0,
    total_amount := 10000000, calculation_method := .pro_rata,
    calculation_basis := "commitment",
    details := .capitalCall 10000000 0 0 0 none true }

def scenarioACommitments : List InvestorCommitment :=
  [{ investor_id := "A", commitment_id := "cA", commitment_amount := 10000000 },
   { investor_id := "B", commitment_id := "cB", commitment_amount := 30000000 }]

/-- A non-pro-rata (flat-amount) capital call over two equal investors. -/
def c3FlatEvent : FundEvent :=
  { event_id := "e3", fund_id := "f", record_date := 0, total_amount := 100,
    calculation_method := .flat_amount, calculation_basis := "commitment",
    details := .capitalCall 100 0 0 0 none true }

def c3Commitments : List InvestorCommitment :=
  [{ investor_id := "A", commitment_id := "cA", commitment_amount := 100 },
   { investor_id := "B", commitment_id := "cB", commitment_amount := 100 }]

/-- C3, counterexample: on a flat-amount (non-pro-rata) capital call with two
participating investors, the code computes each gross as
`total_amount / len([commitment])` — division by a one-element list — so both
investors are charged the full $100, not the equal split $50 each that the
claim asserts. -/
theorem c3_counterexample :
    ((calculateEvent [] c3FlatEvent c3Commitments).2.investor_calculations.map
        (fun k => k.gross_amount)) = [100, 100] ∧
    ¬ ((calculateEvent [] c3FlatEvent c3Commitments).2.investor_calculations.map
        (fun k => k.gross_amount))
      = [c3FlatEvent.total_amount / 2, c3FlatEvent.total_amount / 2] := by
  have hAB : ("A" : String) ≠ "B" := by decide
  have hBA : ("B" : String) ≠ "A" := by decide
  have h : ((calculateEvent [] c3FlatEvent c3Commitments).2.investor_calculations.map
      (fun k => k.gross_amount)) = [100, 100] := by
    norm_num [calculateEvent, totalBasis, getCalculationBasisAmounts, dictInsert,
      lookupAmount, isInvestorEligible, basisAmount, calcForCommitment,
      calcCapitalCall, truthyRate, c3FlatEvent, c3Commitments, hAB, hBA,
      (by decide : CalculationMethod.flat_amount ≠ CalculationMethod.pro_rata),
      List.filterMap_cons, List.cons_ne_nil]
  refine ⟨h, ?_⟩
  rw [h]
  norm_num [c3FlatEvent]

/-- C3 (amended): for a capital-call event with no minimum-call threshold,
distinct investor ids and nonzero total basis, every eligible investor gets
`ownership = basis / total_basis × 100`; the gross equals
`total_amount × ownership / 100` when the method is pro-rata and otherwise
equals the full `total_amount` (the source divides by the one-element list
`[commitment]`, not by the participant count); the investment, management-fee
and expense portions are each proportioned by the same ownership percentage.
Scenario A holds: ownership 25%, gross $2,500,000. -/
theorem c3_capital_call (ledger : List InvestorEventCalculation)
    (ev : FundEvent) (cs : List InvestorCommitment)
    (inv fee exp org : ℚ) (ap : Bool)
    (hdet : ev.details = .capitalCall inv fee exp org none ap)
    (hnd : (cs.map (fun c => c.investor_id)).Nodup)
    (ht : totalBasis ev cs ≠ 0) :
    (∀ c ∈ cs, isInvestorEligible c ev.record_date = true →
      ∃ k ∈ (calculateEvent ledger ev cs).2.investor_calculations,
        k.investor_id = c.investor_id ∧
        k.ownership_percentage
          = basisAmount ev.calculation_basis c / totalBasis ev cs * 100 ∧
        k.gross_amount = (if ev.calculation_method = .pro_rata
          then ev.total_amount * k.ownership_percentage / 100
          else ev.total_amount) ∧
        k.investment_portion = some (inv * k.ownership_percentage / 100) ∧
        k.management_fee_portion = some (fee * k.ownership_percentage / 100) ∧
        k.expense_portion = some (exp * k.ownership_percentage / 100)) ∧
    ((calculateEvent [] scenarioAEvent scenarioACommitments).2.investor_calculations.map
        (fun k => (k.investor_id, k.ownership_percentage, k.gross_amount)))
      = [("A", 25, 2500000), ("B", 75, 7500000)] := by
  constructor
  · intro c hc he
    refine ⟨calcForCommitment ev c (basisAmount ev.calculation_basis c)
        (basisAmount ev.calculation_basis c / totalBasis ev cs * 100), ?_, ?_⟩
    · rw [eventCalcs_eq ledger ev cs hnd ht]
      exact List.mem_map_of_mem _ (List.mem_filter.mpr ⟨hc, he⟩)
    · simp [calcForCommitment, hdet, calcCapitalCall, truthyRate, div_one]
  · have hAB : ("A" : String) ≠ "B" := by decide
    have hBA : ("B" : String) ≠ "A" := by decide
    norm_num [calculateEvent, totalBasis, getCalculationBasisAmounts, dictInsert,
      lookupAmount, isInvestorEligible, basisAmount, calcForCommitment,
      calcCapitalCall, truthyRate, scenarioAEvent, scenarioACommitments,
      hAB, hBA, List.filterMap_cons, List.cons_ne_nil]

theorem c3_capital_call_witness :
    scenarioAEvent.details
      = EventDetails.capitalCall 10000000 0 0 0 none true ∧
    (scenarioACommitments.map (fun c => c.investor_id)).Nodup ∧
    totalBasis scenarioAEvent scenarioACommitments ≠ 0 ∧
    ((∀ c ∈ scenarioACommitments,
        isInvestorEligible c scenarioAEvent.record_date = true →
      ∃ k ∈ (calculateEvent [] scenarioAEvent scenarioACommitments).2.investor_calculations,
        k.investor_id = c.investor_id ∧
        k.ownership_percentage
          = basisAmount scenarioAEvent.calculation_basis c
              / totalBasis scenarioAEvent scenarioACommitments * 100 ∧
        k.gross_amount = (if scenarioAEvent.calculation_method = .pro_rata
          then scenarioAEvent.total_amount * k.ownership_percentage / 100
          else scenarioAEvent.total_amount) ∧
        k.investment_portion = some (10000000 * k.ownership_percentage / 100) ∧
        k.management_fee_portion = some (0 * k.ownership_percentage / 100) ∧
        k.expense_portion = some (0 * k.ownership_percentage / 100)) ∧
      ((calculateEvent [] scenarioAEvent scenarioACommitments).2.investor_calculations.map
          (fun k => (k.investor_id, k.ownership_percentage, k.gross_amount)))
        = [("A", 25, 2500000), ("B", 75, 7500000)]) :=
  ⟨rfl, by simp [scenarioACommitments], by
      norm_num [totalBasis, getCalculationBasisAmounts, dictInsert,
        isInvestorEligible, basisAmount, scenarioAEvent, scenarioACommitments,
        (by decide : ("A" : String) ≠ "B"), (by decide : ("B" : String) ≠ "A")],
    c3_capital_call [] scenarioAEvent scenarioACommitments 10000000 0 0 0 true rfl
      (by simp [scenarioACommitments])
      (by norm_num [totalBasis, getCalculationBasisAmounts, dictInsert,
        isInvestorEligible, basisAmount, scenarioAEvent, scenarioACommitments,
        (by decide : ("A" : String) ≠ "B"), (by decide : ("B" : String) ≠ "A")])⟩

/-- Scenario D of the spec: a $1,000,000 gross share, 30% withholding
required, no offsets. -/
def scenarioDEvent : FundEvent :=
  { event_id := "eD", fund_id := "f", record_date := 0, total_amount := 1000000,
    calculation_method := .pro_rata, calculation_basis := "commitment",
    details := .distribution 1000000 0 0 true (3 / 10) }

def scenarioDCommitments : List InvestorCommitment :=
  [{ investor_id := "A", commitment_id := "cA", commitment_amount := 1000000 }]

/-- C4: for a distribution event with distinct investor ids and nonzero total
basis, every eligible investor's gross is `gross_distribution × ownership% /
100`, the fee and expense offsets are proportioned the same way, withholding
is `gross × (the investor's own rate, else the event default)` when
withholding is required (else 0), and net is
`max(0, gross − fee_offset − expense_offset − withholding)`, hence never
negative.  Scenario D holds: $1,000,000 gross, 30% withholding, no offsets →
net $700,000. -/
theorem c4_distribution (ledger : List InvestorEventCalculation)
    (ev : FundEvent) (cs : List InvestorCommitment)
    (gd mfo xo dr : ℚ) (wr : Bool)
    (hdet : ev.details = .distribution gd mfo xo wr dr)
    (hnd : (cs.map (fun c => c.investor_id)).Nodup)
    (ht : totalBasis ev cs ≠ 0) :
    (∀ c ∈ cs, isInvestorEligible c ev.record_date = true →
      ∃ k ∈ (calculateEvent ledger ev cs).2.investor_calculations,
        k.investor_id = c.investor_id ∧
        k.ownership_percentage
          = basisAmount ev.calculation_basis c / totalBasis ev cs * 100 ∧
        k.gross_amount = gd * k.ownership_percentage / 100 ∧
        k.management_fee_offset = mfo * k.ownership_percentage / 100 ∧
        k.expense_offset = xo * k.ownership_percentage / 100 ∧
        k.withholding_amount = (if wr
          then k.gross_amount * (c.withholding_rate.getD dr) else 0) ∧
        k.net_amount = max (k.gross_amount - k.management_fee_offset
          - k.expense_offset - k.withholding_amount) 0 ∧
        0 ≤ k.net_amount) ∧
    ((calculateEvent [] scenarioDEvent scenarioDCommitments).2.investor_calculations.map
        (fun k => (k.gross_amount, k.withholding_amount, k.net_amount)))
      = [(1000000, 300000, 700000)] := by
  constructor
  · intro c hc he
    refine ⟨calcForCommitment ev c (basisAmount ev.calculation_basis c)
        (basisAmount ev.calculation_basis c / totalBasis ev cs * 100), ?_, ?_⟩
    · rw [eventCalcs_eq ledger ev cs hnd ht]
      exact List.mem_map_of_mem _ (List.mem_filter.mpr ⟨hc, he⟩)
    · simp [calcForCommitment, hdet, calcDistribution, le_max_right]
  · norm_num [calculateEvent, totalBasis, getCalculationBasisAmounts, dictInsert,
      lookupAmount, isInvestorEligible, basisAmount, calcForCommitment,
      calcDistribution, scenarioDEvent, scenarioDCommitments, max_def,
      List.filterMap_cons, List.cons_ne_nil]

theorem c4_distribution_witness :
    scenarioDEvent.details
      = EventDetails.distribution 1000000 0 0 true (3 / 10) ∧
    (scenarioDCommitments.map (fun c => c.investor_id)).Nodup ∧
    totalBasis scenarioDEvent scenarioDCommitments ≠ 0 ∧
    ((∀ c ∈ scenarioDCommitments,
        isInvestorEligible c scenarioDEvent.record_date = true →
      ∃ k ∈ (calculateEvent [] scenarioDEvent scenarioDCommitments).2.investor_calculations,
        k.investor_id = c.investor_id ∧
        k.ownership_percentage
          = basisAmount scenarioDEvent.calculation_basis c
              / totalBasis scenarioDEvent scenarioDCommitments * 100 ∧
        k.gross_amount = 1000000 * k.ownership_percentage / 100 ∧
        k.management_fee_offset = 0 * k.ownership_percentage / 100 ∧
        k.expense_offset = 0 * k.ownership_percentage / 100 ∧
        k.withholding_amount = (if true
          then k.gross_amount * (c.withholding_rate.getD (3 / 10)) else 0) ∧
        k.net_amount = max (k.gross_amount - k.management_fee_offset
          - k.expense_offset - k.withholding_amount) 0 ∧
        0 ≤ k.net_amount) ∧
      ((calculateEvent [] scenarioDEvent scenarioDCommitments).2.investor_calculations.map
          (fun k => (k.gross_amount, k.withholding_amount, k.net_amount)))
        = [(1000000, 300000, 700000)]) :=
  ⟨rfl, by simp [scenarioDCommitments], by
      norm_num [totalBasis, getCalculationBasisAmounts, dictInsert,
        isInvestorEligible, basisAmount, scenarioDEvent, scenarioDCommitments],
    c4_distribution [] scenarioDEvent scenarioDCommitments 1000000 0 0 (3 / 10)
      true rfl (by simp [scenarioDCommitments])
      (by norm_num [totalBasis, getCalculationBasisAmounts, dictInsert,
        isInvestorEligible, basisAmount, scenarioDEvent, scenarioDCommitments])⟩

/-- C7: when the eligible investors have a total basis of zero,
`calculate_event` performs no per-investor division: it leaves the ledger
untouched and returns the failed result — empty calculations, zero totals,
the validation error recorded, `processing_status = "failed"`. -/
theorem c7_zero_total_basis (ledger : List InvestorEventCalculation)
    (ev : FundEvent) (cs : List InvestorCommitment)
    (h : totalBasis ev cs = 0) :
    (calculateEvent ledger ev cs).1 = ledger ∧
    (calculateEvent ledger ev cs).2
      = { event_id := ev.event_id
          total_investors_processed := 0
          total_gross_amount := 0
          total_net_amount := 0
          total_withholding := 0
          investor_calculations := []
          validation_errors := ["No eligible investors found for calculation"]
          validation_warnings := []
          processing_status := "failed" } := by
  rw [calculateEvent]
  simp [h]

def c7Event : FundEvent :=
  { event_id := "e7", fund_id := "f", record_date := 0, total_amount := 100,
    details := .generic }

theorem c7_zero_total_basis_witness :
    totalBasis c7Event [] = 0 ∧
    ((calculateEvent [] c7Event []).1 = [] ∧
      (calculateEvent [] c7Event []).2
        = { event_id := c7Event.event_id
            total_investors_processed := 0
            total_gross_amount := 0
            total_net_amount := 0
            total_withholding := 0
            investor_calculations := []
            validation_errors := ["No eligible investors found for calculation"]
            validation_warnings := []
            processing_status := "failed" }) :=
  ⟨rfl, c7_zero_total_basis [] c7Event [] rfl⟩

/-- C9: re-running `calculate_event` with identical event and commitment
inputs yields an identical processing result — in particular the same
per-investor ownership percentage, basis amount, gross amount, offsets,
withholding and net amount — because the result never depends on the
engine's accumulated calculation ledger, the only state the first run
changes.  (The source's generated `calculation_id`/timestamps are outside
the model.) -/
theorem c9_event_calculation_idempotent (ledger : List InvestorEventCalculation)
    (ev : FundEvent) (cs : List InvestorCommitment) :
    (calculateEvent (calculateEvent ledger ev cs).1 ev cs).2
      = (calculateEvent ledger ev cs).2 := by
  by_cases h : totalBasis ev cs = 0 <;> simp [calculateEvent, h]

/-!  ## Allocation engine
     From src/backend/api-gateway/src/models/allocation_engine.py, with the
     data model of src/backend/api-gateway/src/models/fund_structure.py  -/

inductive FundStructureType where
  | main
  | parallel
  | feeder
  | master
  | blocker
  | aggregator
deriving DecidableEq

inductive InvestorEligibility where
  | us_taxable
  | us_tax_exempt
  | non_us
  | qualified_purchaser
  | accredited_investor
  | institutional
  | erisa_plan
deriving DecidableEq

inductive AllocationStrategy where
  | pro_rata
  | first_come_first_served
  | tiered
  | custom
deriving DecidableEq

/-- `FundStructure` (fund_structure.py lines 34-90), restricted to the
fields the allocation engine reads; fund type/status, dates, capital-tracking
fields other than `committed_capital`, and metadata are omitted. -/
structure FundStructure where
  fund_id : String
  fund_name : String
  structure_type : FundStructureType
  target_size : ℚ
  min_commitment : ℚ := 1000000
  max_commitment : Option ℚ := none
  max_investors : Option Nat := none
  eligible_investor_types : List InvestorEligibility := []
  restricted_jurisdictions : List String := []
  management_fee_rate : ℚ
  carry_rate : ℚ
  committed_capital : ℚ := 0
  parent_fund_id : Option String := none
  child_funds : List String := []
  sibling_funds : List String := []
  allocation_strategy : AllocationStrategy := .pro_rata
deriving DecidableEq

/-- `AllocationRequest` (fund_structure.py lines 138-150); the unused
`accepts_side_letter` flag is omitted.  (pydantic enforces
`requested_amount > 0` at construction; the model states it as a hypothesis
where needed.) -/
structure AllocationRequest where
  investor_id : String
  fund_id : String
  requested_amount : ℚ
  investor_type : InvestorEligibility
  jurisdiction : String
  preference_order : List String := []
  tax_transparent_required : Bool := false
  erisa_percentage : Option ℚ := none
deriving DecidableEq

/-- An entry of the engine's `self.allocations` ledger
(`InvestorAllocation`, fund_structure.py lines 111-135); the engine reads
only `investor_id` and `fund_id`. -/
structure InvestorAllocation where
  investor_id : String
  fund_id : String
deriving DecidableEq

/-- The rejection reasons built as f-strings by `_check_eligibility`
(allocation_engine.py lines 125-182), as a structured type.
`_find_alternative_funds` tests `"minimum commitment" in reason`, which
among these messages identifies exactly `belowMinCommitment`. -/
inductive RejectionReason where
  | typeNotEligible (t : InvestorEligibility)
  | jurisdictionRestricted (j : String)
  | belowMinCommitment (m : ℚ)
  | aboveMaxCommitment (m : ℚ)
  | fullySubscribed
  | maxInvestorsReached (n : Nat)
  | erisaLimitExceeded
  | notTaxTransparent
deriving DecidableEq

/-- A per-fund allocation dict of `_allocate_to_funds` (lines 272-278). -/
structure FundAllocationEntry where
  fund_id : String
  fund_name : String
  structure_type : FundStructureType
  allocated_amount : ℚ
  percentage : ℚ
deriving DecidableEq

/-- An alternative-fund suggestion of `_find_alternative_funds`
(lines 368-373); the free-text `suggestion` string is omitted. -/
structure AlternativeFund where
  fund_id : String
  fund_name : String
  min_commitment : ℚ
deriving DecidableEq

/-- `AllocationResult` (fund_structure.py lines 153-171); the generated
`request_id` and timestamp are omitted. -/
structure AllocationResult where
  investor_id : String
  total_requested : ℚ
  total_allocated : ℚ
  allocation_status : String
  allocations : List FundAllocationEntry
  rejection_reasons : List RejectionReason
  alternative_funds : List AlternativeFund
deriving DecidableEq

/-- `AllocationScore` (allocation_engine.py lines 28-35); the source keeps a
`factors` dict and sets `score = sum(factors.values())`, so only the sum is
modelled. -/
structure AllocationScore where
  fund_id : String
  score : ℚ
  eligible : Bool
  rejection_reasons : List RejectionReason
deriving DecidableEq

/-- `AllocationEngine` state (lines 44-48): the funds dict in insertion
order, the investor registry (the engine reads only the looked-up investor's
id, which equals its key, so the key list suffices) and the allocations
ledger.  The `constraints` list is never read on the allocation path. -/
structure AllocationEngine where
  funds : List (String × FundStructure)
  investors : List String
  allocations : List InvestorAllocation
deriving DecidableEq

def availableCapacity (f : FundStructure) : ℚ :=
  f.target_size - f.committed_capital

/-- `_count_fund_investors` (lines 377-379). -/
def countFundInvestors (e : AllocationEngine) (fund_id : String) : Nat :=
  (e.allocations.filter (fun a => decide (a.fund_id = fund_id))).length

/-- `_check_erisa_limit_exceeded` (lines 381-389): the source compares
against a hardcoded current participation of 0.0. -/
def checkErisaLimitExceeded (_f : FundStructure) (new_erisa_percentage : ℚ) : Bool :=
  decide (25 < 0 + new_erisa_percentage)

/-- `_investor_in_related_funds` (lines 391-402). -/
def investorInRelatedFunds (e : AllocationEngine) (investor_id : String)
    (f : FundStructure) : Bool :=
  let related := f.sibling_funds ++ f.child_funds
    ++ (match f.parent_fund_id with | some p => [p] | none => [])
  e.allocations.any (fun a =>
    decide (a.investor_id = investor_id) && decide (a.fund_id ∈ related))

/-- `_check_eligibility` (lines 125-182), returning the reason list (the
source also returns the Boolean `reasons = []`). -/
def checkEligibility (e : AllocationEngine) (f : FundStructure)
    (req : AllocationRequest) : List RejectionReason :=
  (if f.eligible_investor_types ≠ [] ∧
      req.investor_type ∉ f.eligible_investor_types
   then [.typeNotEligible req.investor_type] else [])
  ++ (if req.jurisdiction ∈ f.restricted_jurisdictions
      then [.jurisdictionRestricted req.jurisdiction] else [])
  ++ (if req.requested_amount < f.min_commitment
      then [.belowMinCommitment f.min_commitment] else [])
  ++ (match truthyRate f.max_commitment with
      | some m => if m < req.requested_amount then [.aboveMaxCommitment m] else []
      | none => [])
  ++ (if availableCapacity f ≤ 0 then [.fullySubscribed] else [])
  ++ (match f.max_investors with
      | some n => if n ≠ 0 ∧ n ≤ countFundInvestors e f.fund_id
                  then [.maxInvestorsReached n] else []
      | none => [])
  ++ (match truthyRate req.erisa_percentage with
      | some p => if f.structure_type = .main ∧ checkErisaLimitExceeded f p = true
                  then [.erisaLimitExceeded] else []
      | none => [])
  ++ (if req.tax_transparent_required = true ∧ f.structure_type ≠ .main ∧
        f.structure_type ≠ .parallel
      then [.notTaxTransparent] else [])

/-- The `structure_scores` table of `_calculate_scoring_factors`
(lines 193-202); the `.get(..., 0.5)` default is unreachable since the match
is total. -/
def structureScore : FundStructureType → ℚ
  | .main => 1
  | .parallel => 9 / 10
  | .feeder => 8 / 10
  | .master => 7 / 10
  | .blocker => 6 / 10
  | .aggregator => 1 / 2

/-- `sum(factors.values())` for `_calculate_scoring_factors`
(lines 184-225). -/
def scoringFactorsSum (e : AllocationEngine) (investor_id : String)
    (f : FundStructure) (req : AllocationRequest) : ℚ :=
  let structure_preference := structureScore f.structure_type
  let capacity_score :=
    (if 0 < f.target_size then availableCapacity f / f.target_size else 0) * (1 / 2)
  let investor_type_match :=
    if req.investor_type ∈ f.eligible_investor_types then 3 / 10 else 0
  let fee_advantage := (1 - (f.management_fee_rate + f.carry_rate)) * (1 / 5)
  let relationship_bonus :=
    if investorInRelatedFunds e investor_id f = true then 1 / 5 else 0
  structure_preference + capacity_score + investor_type_match
    + fee_advantage + relationship_bonus

/-- `_score_funds_for_investor` (lines 91-123). -/
def scoreFundsForInvestor (e : AllocationEngine) (investor_id : String)
    (req : AllocationRequest) : List AllocationScore :=
  e.funds.map (fun pair =>
    let reasons := checkEligibility e pair.2 req
    if reasons = [] then
      { fund_id := pair.1, score := scoringFactorsSum e investor_id pair.2 req,
        eligible := true, rejection_reasons := [] }
    else
      { fund_id := pair.1, score := 0, eligible := false,
        rejection_reasons := reasons })

/-- `preference_index.get(fund_id, len(preference_order))` of
`_sort_funds_by_preference` (lines 234-238): the first index of the fund id
in the preference list, or its length when absent. -/
def prefValue : List String → String → Nat
  | [], _ => 0
  | o :: rest, fund_id => if o = fund_id then 0 else 1 + prefValue rest fund_id

/-- The sort key comparison `(pref_value, -score)` of
`_sort_funds_by_preference` (lines 236-239), as a total preorder. -/
def scoreLe (order : List String) (a b : AllocationScore) : Bool :=
  decide (prefValue order a.fund_id < prefValue order b.fund_id)
  || (decide (prefValue order a.fund_id = prefValue order b.fund_id)
      && decide (b.score ≤ a.score))

def insertScore (le : AllocationScore → AllocationScore → Bool)
    (a : AllocationScore) : List AllocationScore → List AllocationScore
  | [] => [a]
  | b :: rest => if le a b then a :: b :: rest else b :: insertScore le a rest

/-- A stable insertion sort, modelling Python's stable `sorted` by the
`(preference rank, -score)` key (`_sort_funds_by_preference`,
lines 227-241): on equal keys the earlier element stays first. -/
def sortScores (le : AllocationScore → AllocationScore → Bool) :
    List AllocationScore → List AllocationScore
  | [] => []
  | a :: rest => insertScore le a (sortScores le rest)

def sortFundsByPreference (eligible_funds : List AllocationScore)
    (preference_order : List String) : List AllocationScore :=
  sortScores (scoreLe preference_order) eligible_funds

def lookupFund (k : String) : List (String × FundStructure) → Option FundStructure
  | [] => none
  | (k', f) :: rest => if k' = k then some f else lookupFund k rest

def updateFund (k : String) (f : FundStructure) :
    List (String × FundStructure) → List (String × FundStructure)
  | [] => []
  | (k', f') :: rest =>
    if k' = k then (k, f) :: rest else (k', f') :: updateFund k f rest

/-- `_calculate_total_demand` (lines 404-407): the source is a placeholder
that always returns 0.0. -/
def calculateTotalDemand (_fund_id : String) : ℚ := 0

/-- `_apply_pro_rata` (lines 287-297).  When `total_demand > capacity` the
source computes `capacity / total_demand`; with the placeholder demand of 0
that branch would be a Python `ZeroDivisionError` (only reachable for a fund
with negative capacity, which the eligibility screen excludes); in ℚ the
total division yields 0. -/
def applyProRata (f : FundStructure) (requested_amount : ℚ) : ℚ :=
  let total_demand := calculateTotalDemand f.fund_id
  if availableCapacity f < total_demand then
    requested_amount * (availableCapacity f / total_demand)
  else requested_amount

/-- The per-fund amount of `_allocate_to_funds` (lines 258-269):
`min(remaining, capacity)`, capped by a truthy `max_commitment`, then the
pro-rata strategy adjustment. -/
def allocationAmountForFund (f : FundStructure) (remaining : ℚ) : ℚ :=
  let a := min remaining (availableCapacity f)
  let b := match truthyRate f.max_commitment with
    | some m => min a m
    | none => a
  if f.allocation_strategy = .pro_rata then applyProRata f b else b

/-- The walk of `_allocate_to_funds` (lines 243-285): greedy over the sorted
eligible funds, stopping when nothing remains; a positive allocation appends
an entry and adds to the fund's `committed_capital`.  (The `lookupFund none`
arm is unreachable: scores are built from the funds map itself.) -/
def allocateToFundsGo (req : AllocationRequest) :
    List AllocationScore → ℚ → List (String × FundStructure) →
      List FundAllocationEntry × List (String × FundStructure)
  | [], _rem, fs => ([], fs)
  | s :: rest, rem, fs =>
    if rem ≤ 0 then ([], fs)
    else
      match lookupFund s.fund_id fs with
      | none => allocateToFundsGo req rest rem fs
      | some f =>
        let amount := allocationAmountForFund f rem
        if 0 < amount then
          let entry : FundAllocationEntry :=
            { fund_id := f.fund_id, fund_name := f.fund_name,
              structure_type := f.structure_type,
              allocated_amount := amount,
              percentage := amount / req.requested_amount * 100 }
          let fs' := updateFund s.fund_id
            { f with committed_capital := f.committed_capital + amount } fs
          let next := allocateToFundsGo req rest (rem - amount) fs'
          (entry :: next.1, next.2)
        else allocateToFundsGo req rest rem fs

/-- `_find_alternative_funds` (lines 354-375): ineligible funds whose
reasons include a minimum-commitment shortfall, capped at 3. -/
def findAlternativeFunds (funds : List (String × FundStructure))
    (all_scores : List AllocationScore) : List AlternativeFund :=
  (all_scores.filterMap (fun s =>
    if s.eligible then none
    else match lookupFund s.fund_id funds with
      | none => none
      | some f =>
        if s.rejection_reasons.any (fun r =>
            match r with | .belowMinCommitment _ => true | _ => false)
        then some { fund_id := f.fund_id, fund_name := f.fund_name,
                    min_commitment := f.min_commitment }
        else none)).take 3

/-- `_create_allocation_result` (lines 299-326). -/
def createAllocationResult (funds : List (String × FundStructure))
    (req : AllocationRequest) (entries : List FundAllocationEntry)
    (all_scores : List AllocationScore) : AllocationResult :=
  let total_allocated := (entries.map (fun a => a.allocated_amount)).sum
  let status0 := if req.requested_amount ≤ total_allocated then "full" else "partial"
  let status := if total_allocated = 0 then "rejected" else status0
  let alternatives := if status = "partial" ∨ status = "rejected"
    then findAlternativeFunds funds all_scores else []
  { investor_id := req.investor_id
    total_requested := req.requested_amount
    total_allocated := total_allocated
    allocation_status := status
    allocations := entries
    rejection_reasons := []
    alternative_funds := alternatives }

/-- `_create_rejection_result` (lines 328-352).  The source deduplicates via
`list(set(...))` with unspecified order; modelled as first-occurrence
deduplication. -/
def createRejectionResult (funds : List (String × FundStructure))
    (req : AllocationRequest) (all_scores : List AllocationScore) :
    AllocationResult :=
  let all_reasons := (all_scores.map (fun s => s.rejection_reasons)).flatten
  { investor_id := req.investor_id
    total_requested := req.requested_amount
    total_allocated := 0
    allocation_status := "rejected"
    allocations := []
    rejection_reasons := all_reasons.eraseDups
    alternative_funds := findAlternativeFunds funds all_scores }

/-- The body of `allocate_investor` after the investor-existence guard
(lines 71-89); returns the result and the updated funds map (the engine's
only mutation on this path). -/
def allocateCore (e : AllocationEngine) (req : AllocationRequest) :
    AllocationResult × List (String × FundStructure) :=
  let fund_scores := scoreFundsForInvestor e req.investor_id req
  let eligible_funds := fund_scores.filter (fun s => s.eligible)
  if eligible_funds = [] then
    (createRejectionResult e.funds req fund_scores, e.funds)
  else
    let sorted_funds := sortFundsByPreference eligible_funds req.preference_order
    let alloc := allocateToFundsGo req sorted_funds req.requested_amount e.funds
    (createAllocationResult alloc.2 req alloc.1 fund_scores, alloc.2)

/-- `allocate_investor` (lines 62-89): an unknown investor id raises
`AllocationError` (modelled as `Except.error`); otherwise the allocation
body runs. -/
def allocateInvestor (e : AllocationEngine) (req : AllocationRequest) :
    Except String (AllocationResult × List (String × FundStructure)) :=
  if req.investor_id ∈ e.investors then Except.ok (allocateCore e req)
  else Except.error ("Investor " ++ req.investor_id ++ " not found")

/-!  ### Allocation theorems (claims C5, C6, C8)  -/

theorem applyProRata_le (f : FundStructure) (b rem : ℚ) (hb : b ≤ rem)
    (h : 0 ≤ rem) : applyProRata f b ≤ rem := by
  simp only [applyProRata, calculateTotalDemand]
  split
  · simpa [div_zero] using h
  · exact hb

theorem allocationAmountForFund_le (f : FundStructure) (rem : ℚ)
    (h : 0 ≤ rem) : allocationAmountForFund f rem ≤ rem := by
  simp only [allocationAmountForFund]
  cases htr : truthyRate f.max_commitment with
  | none =>
    simp only [htr]
    split
    · exact applyProRata_le f _ rem (min_le_left _ _) h
    · exact min_le_left _ _
  | some m =>
    simp only [htr]
    split
    · exact applyProRata_le f _ rem
        (le_trans (min_le_left _ _) (min_le_left _ _)) h
    · exact le_trans (min_le_left _ _) (min_le_left _ _)

/-- The greedy walk never allocates a negative total and never allocates
more than what remained when it started. -/
theorem allocateToFundsGo_sum (req : AllocationRequest) :
    ∀ (scores : List AllocationScore) (rem : ℚ)
      (fs : List (String × FundStructure)), 0 ≤ rem →
      0 ≤ ((allocateToFundsGo req scores rem fs).1.map
            (fun a => a.allocated_amount)).sum ∧
      ((allocateToFundsGo req scores rem fs).1.map
            (fun a => a.allocated_amount)).sum ≤ rem := by
  intro scores
  induction scores with
  | nil =>
    intro rem fs h
    simpa [allocateToFundsGo] using h
  | cons s rest ih =>
    intro rem fs h
    rw [allocateToFundsGo]
    by_cases hrem : rem ≤ 0
    · rw [if_pos hrem]
      simpa using h
    · rw [if_neg hrem]
      cases hlf : lookupFund s.fund_id fs with
      | none => exact ih rem fs h
      | some f =>
        simp only []
        by_cases hamt : 0 < allocationAmountForFund f rem
        · have hle := allocationAmountForFund_le f rem h
          obtain ⟨hr1, hr2⟩ := ih (rem - allocationAmountForFund f rem)
            (updateFund s.fund_id
              { f with committed_capital :=
                  f.committed_capital + allocationAmountForFund f rem } fs)
            (by linarith)
          simp only [if_pos hamt, List.map_cons, List.sum_cons]
          constructor
          · linarith
          · linarith
        · simp only [if_neg hamt]
          exact ih rem fs h

/-- C5: for every allocation request with (pydantic-enforced) positive
requested amount, the result status is `full` iff the total allocated is at
least the requested amount, `partial` iff it is strictly between 0 and the
requested amount, and `rejected` iff it is 0; the reported total is the sum
of the per-vehicle allocated amounts, and on a `full` outcome that sum
equals the requested amount exactly. -/
theorem c5_allocation_result_classification (e : AllocationEngine)
    (req : AllocationRequest) (hpos : 0 < req.requested_amount) :
    ((allocateCore e req).1.allocation_status = "full"
        ↔ req.requested_amount ≤ (allocateCore e req).1.total_allocated) ∧
    ((allocateCore e req).1.allocation_status = "partial"
        ↔ 0 < (allocateCore e req).1.total_allocated
          ∧ (allocateCore e req).1.total_allocated < req.requested_amount) ∧
    ((allocateCore e req).1.allocation_status = "rejected"
        ↔ (allocateCore e req).1.total_allocated = 0) ∧
    (((allocateCore e req).1.allocations.map (fun a => a.allocated_amount)).sum
        = (allocateCore e req).1.total_allocated) ∧
    ((allocateCore e req).1.allocation_status = "full" →
      (allocateCore e req).1.total_allocated = req.requested_amount) := by
  simp only [allocateCore]
  by_cases helig : (scoreFundsForInvestor e req.investor_id req).filter
      (fun s => s.eligible) = []
  · rw [if_pos helig]
    simp [createRejectionResult, hpos.not_le]
  · rw [if_neg helig]
    obtain ⟨hnn, hle⟩ := allocateToFundsGo_sum req
      (sortFundsByPreference
        ((scoreFundsForInvestor e req.investor_id req).filter (fun s => s.eligible))
        req.preference_order)
      req.requested_amount e.funds hpos.le
    by_cases h0 : ((allocateToFundsGo req
        (sortFundsByPreference
          ((scoreFundsForInvestor e req.investor_id req).filter (fun s => s.eligible))
          req.preference_order)
        req.requested_amount e.funds).1.map (fun a => a.allocated_amount)).sum = 0
    · simp [createAllocationResult, h0, hpos.not_le]
    · by_cases hfull : req.requested_amount ≤ ((allocateToFundsGo req
          (sortFundsByPreference
            ((scoreFundsForInvestor e req.investor_id req).filter (fun s => s.eligible))
            req.preference_order)
          req.requested_amount e.funds).1.map (fun a => a.allocated_amount)).sum
      · have heq := le_antisymm hle hfull
        simp [createAllocationResult, h0, hfull, heq, ne_of_gt hpos]
      · have hlt := lt_of_not_le hfull
        have hgt := lt_of_le_of_ne hnn (Ne.symm h0)
        simp [createAllocationResult, h0, hfull, hlt, hgt]

def c5Fund : FundStructure :=
  { fund_id := "F", fund_name := "Fund F", structure_type := .main,
    target_size := 100, min_commitment := 10,
    management_fee_rate := 2 / 100, carry_rate := 20 / 100 }

def c5Engine : AllocationEngine :=
  { funds := [("F", c5Fund)], investors := ["I"], allocations := [] }

def c5Request : AllocationRequest :=
  { investor_id := "I", fund_id := "F", requested_amount := 50,
    investor_type := .institutional, jurisdiction := "US" }

theorem c5_allocation_result_classification_witness :
    0 < c5Request.requested_amount ∧
    (((allocateCore c5Engine c5Request).1.allocation_status = "full"
        ↔ c5Request.requested_amount
          ≤ (allocateCore c5Engine c5Request).1.total_allocated) ∧
      ((allocateCore c5Engine c5Request).1.allocation_status = "partial"
        ↔ 0 < (allocateCore c5Engine c5Request).1.total_allocated
          ∧ (allocateCore c5Engine c5Request).1.total_allocated
            < c5Request.requested_amount) ∧
      ((allocateCore c5Engine c5Request).1.allocation_status = "rejected"
        ↔ (allocateCore c5Engine c5Request).1.total_allocated = 0) ∧
      (((allocateCore c5Engine c5Request).1.allocations.map
          (fun a => a.allocated_amount)).sum
        = (allocateCore c5Engine c5Request).1.total_allocated) ∧
      ((allocateCore c5Engine c5Request).1.allocation_status = "full" →
        (allocateCore c5Engine c5Request).1.total_allocated
          = c5Request.requested_amount)) :=
  ⟨by norm_num [c5Request],
    c5_allocation_result_classification c5Engine c5Request
      (by norm_num [c5Request])⟩

/-- C6: in the greedy walk, a pro-rata vehicle with a (truthy) maximum
commitment and positive available capacity receives
`min(remaining, capacity, max_commitment)`, scaled by
`capacity / total_demand` exactly when the total outstanding demand exceeds
the capacity — and since `_calculate_total_demand` is the source's
placeholder returning 0, the demand never exceeds a positive capacity, so
the scale-down branch never fires. -/
theorem c6_pro_rata_demand_scaling (f : FundStructure) (rem m : ℚ)
    (hs : f.allocation_strategy = .pro_rata)
    (hm : truthyRate f.max_commitment = some m)
    (hc : 0 < availableCapacity f) :
    calculateTotalDemand f.fund_id ≤ availableCapacity f ∧
    allocationAmountForFund f rem
      = (if availableCapacity f < calculateTotalDemand f.fund_id
         then min (min rem (availableCapacity f)) m
                * (availableCapacity f / calculateTotalDemand f.fund_id)
         else min (min rem (availableCapacity f)) m) := by
  have hd : ¬ availableCapacity f < calculateTotalDemand f.fund_id := by
    simp only [calculateTotalDemand]
    exact not_lt.mpr hc.le
  constructor
  · simpa [calculateTotalDemand] using hc.le
  · rw [if_neg hd]
    simp [allocationAmountForFund, hm, hs, applyProRata, if_neg hd]

def c6Fund : FundStructure :=
  { fund_id := "G", fund_name := "Fund G", structure_type := .main,
    target_size := 100, min_commitment := 10, max_commitment := some 50,
    management_fee_rate := 2 / 100, carry_rate := 20 / 100,
    allocation_strategy := .pro_rata }

theorem c6_pro_rata_demand_scaling_witness :
    c6Fund.allocation_strategy = AllocationStrategy.pro_rata ∧
    truthyRate c6Fund.max_commitment = some 50 ∧
    0 < availableCapacity c6Fund ∧
    (calculateTotalDemand c6Fund.fund_id ≤ availableCapacity c6Fund ∧
      allocationAmountForFund c6Fund 70
        = (if availableCapacity c6Fund < calculateTotalDemand c6Fund.fund_id
           then min (min 70 (availableCapacity c6Fund)) 50
                  * (availableCapacity c6Fund / calculateTotalDemand c6Fund.fund_id)
           else min (min 70 (availableCapacity c6Fund)) 50)) :=
  ⟨rfl, by norm_num [truthyRate, c6Fund],
    by norm_num [availableCapacity, c6Fund],
    c6_pro_rata_demand_scaling c6Fund 70 50 rfl
      (by norm_num [truthyRate, c6Fund])
      (by norm_num [availableCapacity, c6Fund])⟩

/-- C8: `allocate_investor` fails (raises `AllocationError`) exactly when
the request's investor id is not in the engine's investor registry; for
every registered investor the call returns a result — eligibility and
policy violations (jurisdiction, commitment bounds, capacity, investor cap,
ERISA, tax transparency) only ever surface as structured rejection reasons
or a status inside that result, never as an exception. -/
theorem c8_unknown_investor_hard_error (e : AllocationEngine)
    (req : AllocationRequest) :
    (allocateInvestor e req
        = Except.error ("Investor " ++ req.investor_id ++ " not found")
      ↔ req.investor_id ∉ e.investors) ∧
    ((∃ out, allocateInvestor e req = Except.ok out)
      ↔ req.investor_id ∈ e.investors) := by
  by_cases h : req.investor_id ∈ e.investors <;> simp [allocateInvestor, h]

end StratCap
